import Mathlib

/-!
Verification of the particle-filter localization engine in
`robot_localization/pf.py` (class `ParticleFilter` and class `Particle`),
as a shallow embedding in Lean 4.

Modelling conventions:
* Python floats are modelled as exact rationals (`ℚ`); decimal literals in
  the source are taken at their decimal value.
* External numeric library calls (`np.cos`, `np.sin`, `np.arctan2`) and the
  external map service `OccupancyField.get_closest_obstacle_distance` are
  modelled as abstract functions collected in an `Env` record; every theorem
  quantifies over the environment, so nothing depends on particular values
  of these functions.
* ROS plumbing (publishers, subscriptions, transforms) is external to the
  core; `run_loop` is modelled as a state transition that additionally
  returns the particle cloud published this tick (`none` on an early return,
  where the source publishes nothing).
* Randomness (`np.random.normal`, the random draws inside
  `draw_random_sample`) is modelled by passing the drawn samples in as
  explicit arguments.
-/

namespace RobotLocalization

/-- A laser scan as consumed by `run_loop`: the message timestamp together
with its polar coordinates `(r, theta)` in the robot frame (the conversion
`convert_scan_to_polar_in_robot_frame` is an external transform helper, so
the scan is modelled directly in polar form). -/
structure Scan where
  stamp : ℚ
  r : List ℚ
  theta : List ℚ
deriving DecidableEq, Repr

/-- `class Particle`: a hypothesis of the robot pose.  Its `__init__` stores
exactly the fields `x`, `y`, `theta` (see `Particle.init` below); there is
no weight field. -/
structure Particle where
  x : ℚ
  y : ℚ
  theta : ℚ
deriving DecidableEq, Repr

instance : Inhabited Particle := ⟨⟨0, 0, 0⟩⟩

/-- `Particle.__init__(self, x=0.0, y=0.0, theta=0.0, w=1.0)`: the body
assigns `self.theta`, `self.x`, `self.y` and never reads `w`. -/
def Particle.init (x y theta w : ℚ) : Particle :=
  { x := x, y := y, theta := theta }

/-- The external functions the filter calls, abstracted: numpy trigonometry
and the occupancy-field distance query (`OccupancyField` is an external map
service per the spec). -/
structure Env where
  cosF : ℚ → ℚ
  sinF : ℚ → ℚ
  atan2F : ℚ → ℚ → ℚ
  closest_obstacle_distance : ℚ → ℚ → ℚ

/-- The mutable attributes of `ParticleFilter` that the estimation core
reads and writes, plus the configuration attributes set in `__init__`. -/
structure PFState where
  n_particles : ℕ
  d_thresh : ℚ
  a_thresh : ℚ
  xy_std : ℚ
  th_std : ℚ
  scan_eval_threshold : ℚ
  last_scan_timestamp : Option ℚ
  scan_to_process : Option Scan
  particle_cloud : List Particle
  weights : List ℚ
  current_odom_xy_theta : Option (ℚ × ℚ × ℚ)
  odom_pose : Option (ℚ × ℚ × ℚ)
deriving DecidableEq, Repr

/-- `ParticleFilter.__init__`: the initial attribute values.  `a_thresh` is
set to `math.pi/6`, which has no exact rational model, so the initial state
is parameterized by its value; no claim depends on it. -/
def PFState.initial (a_thresh : ℚ) : PFState :=
  { n_particles := 300
    d_thresh := 5/100
    a_thresh := a_thresh
    xy_std := 7/10
    th_std := a_thresh * (6/7)
    scan_eval_threshold := 2/10
    last_scan_timestamp := none
    scan_to_process := none
    particle_cloud := []
    weights := List.replicate 300 1
    current_odom_xy_theta := none
    odom_pose := none }

/-- `ParticleFilter.normalize_particles` body: `self.weights /= sum(self.weights)`,
an elementwise division of the weight array by its sum (the spec calls this
operation `normalizeWeights`). -/
def normalizeWeights (w : List ℚ) : List ℚ :=
  w.map (fun x => x / w.sum)

/-- `ParticleFilter.normalize_particles` as a state transition. -/
def PFState.normalize_particles (s : PFState) : PFState :=
  { s with weights := normalizeWeights s.weights }

/-- `ParticleFilter.project_scan_to_map(rs, thetas, p)`: rotate the scan
bearings by `p.theta`, then `[cos(thetas), sin(thetas)] * rs + [[p.x], [p.y]]`,
giving for each reading the map-frame point
`(p.x + r·cos(theta + p.theta), p.y + r·sin(theta + p.theta))`. -/
def project_scan_to_map (env : Env) (rs thetas : List ℚ) (p : Particle) : List (ℚ × ℚ) :=
  (rs.zip thetas).map (fun rt =>
    (env.cosF (rt.2 + p.theta) * rt.1 + p.x, env.sinF (rt.2 + p.theta) * rt.1 + p.y))

/-- The per-particle score computed inside
`ParticleFilter.update_particles_with_laser`: query the occupancy field for
the distance of every projected scan point and count how many are strictly
below `scan_eval_threshold` (`raw_weight = sum(ds < self.scan_eval_threshold)`). -/
def particle_raw_weight (env : Env) (threshold : ℚ) (rs thetas : List ℚ) (p : Particle) : ℕ :=
  ((project_scan_to_map env rs thetas p).map
    (fun q => env.closest_obstacle_distance q.1 q.2)).countP (fun d => decide (d < threshold))

/-- `ParticleFilter.update_particles_with_laser(r, theta)`: for each index
`idx` into the particle cloud, `self.weights[idx] = raw_weight` — so the
weight array becomes the per-particle raw scores on the cloud's indices, any
surplus weight entries beyond the cloud length being left unchanged. -/
def PFState.update_particles_with_laser (s : PFState) (env : Env) (rs thetas : List ℚ) :
    PFState :=
  let new_weights := s.particle_cloud.map
    (fun p => (particle_raw_weight env s.scan_eval_threshold rs thetas p : ℚ))
  { s with weights := new_weights ++ s.weights.drop s.particle_cloud.length }

/-- `ParticleFilter.n_highest_weighted(n)`: indices of the `n` largest
weights via `heapq.nlargest(n, range(len(self.weights)), key)` — equivalent
to a stable descending sort of the indices by weight, then taking `n` —
and the corresponding particles of the cloud. -/
def PFState.n_highest_weighted (s : PFState) (n : ℕ) : List Particle :=
  let idx_best := ((List.range s.weights.length).insertionSort
    (fun i j => s.weights.getD j 0 ≤ s.weights.getD i 0)).take n
  idx_best.map (fun i => s.particle_cloud.getD i default)

/-- `ParticleFilter.update_robot_pose()`: normalize the weights, select the
`self.n_particles // 5` highest-weighted particles, and average the matrix
whose rows are `[x, y, cos theta, sin theta]` down the columns; the pose
estimate is the averaged `x`, `y` and `arctan2(avg sin, avg cos)`.  Returns
the updated state together with the `robot_pose` particle. -/
def PFState.update_robot_pose (s : PFState) (env : Env) : PFState × Particle :=
  let s1 := s.normalize_particles
  let best := s1.n_highest_weighted (s1.n_particles / 5)
  let m : ℚ := best.length
  let avg_x := (best.map Particle.x).sum / m
  let avg_y := (best.map Particle.y).sum / m
  let avg_cos := (best.map (fun p => env.cosF p.theta)).sum / m
  let avg_sin := (best.map (fun p => env.sinF p.theta)).sum / m
  (s1, { x := avg_x, y := avg_y, theta := env.atan2F avg_sin avg_cos })

/-- `ParticleFilter.initialize_particle_cloud(timestamp, xy_theta)`: rebuild
the cloud as `Particle(x_dist[i], y_dist[i], th_dist[i], 1)` for
`i in range(self.n_particles)` and then call `normalize_particles()`.
The three sample arrays come from `np.random.normal(mean, std, n)`; the
draws are passed in explicitly.  Note that the weight array itself is not
rebuilt — only normalized. -/
def PFState.initialize_particle_cloud (s : PFState) (x_dist y_dist th_dist : List ℚ) :
    PFState :=
  let cloud := (List.range s.n_particles).map
    (fun i => Particle.init (x_dist.getD i 0) (y_dist.getD i 0) (th_dist.getD i 0) 1)
  PFState.normalize_particles { s with particle_cloud := cloud }

/-- `ParticleFilter.update_particles_with_odom()`: read the new odometry
pose, and if an anchor `current_odom_xy_theta` exists, shift every particle
by the delta plus per-particle Gaussian noise (three independent draws per
particle, passed in via `noise`) and move the anchor; with no anchor yet,
only set the anchor. -/
def PFState.update_particles_with_odom (s : PFState) (noise : ℕ → ℚ × ℚ × ℚ) : PFState :=
  let new_odom := s.odom_pose.getD (0, 0, 0)
  match s.current_odom_xy_theta with
  | some cur =>
      let delta := (new_odom.1 - cur.1, new_odom.2.1 - cur.2.1, new_odom.2.2 - cur.2.2)
      { s with
        current_odom_xy_theta := some new_odom,
        particle_cloud := s.particle_cloud.mapIdx (fun i p =>
          { x := p.x + (delta.1 + (noise i).1),
            y := p.y + (delta.2.1 + (noise i).2.1),
            theta := p.theta + (delta.2.2 + (noise i).2.2) }) }
  | none => { s with current_odom_xy_theta := some new_odom }

/-- Modelled from the spec: `draw_random_sample(choices, probabilities, n)`
is defined in `helper_functions.py`, which is not among the provided source
files.  Spec §4.4: the resampler draws `n` particles independently with
replacement, each draw selecting index i with probability
`weight_i / Σweight`.  The `n` random index draws are abstracted as the
function `sel`; the output size and the selection-by-index structure are the
properties the claims rely on. -/
def draw_random_sample (choices : List Particle) (probabilities : List ℚ) (n : ℕ)
    (sel : ℕ → ℕ) : List Particle :=
  (List.range n).map (fun i => choices.getD (sel i) default)

/-- `ParticleFilter.resample_particles()`: normalize the distribution, then
replace the cloud by
`draw_random_sample(self.particle_cloud, self.weights, self.n_particles)`. -/
def PFState.resample_particles (s : PFState) (sel : ℕ → ℕ) : PFState :=
  let s1 := s.normalize_particles
  { s1 with particle_cloud :=
      draw_random_sample s1.particle_cloud s1.weights s1.n_particles sel }

/-- `ParticleFilter.moved_far_enough_to_update(new_odom_xy_theta)`:
`fabs(dx) > d_thresh or fabs(dy) > d_thresh or fabs(dtheta) > a_thresh`
against the anchor `current_odom_xy_theta`. -/
def PFState.moved_far_enough_to_update (s : PFState) (new_odom : ℚ × ℚ × ℚ) : Bool :=
  let cur := s.current_odom_xy_theta.getD (0, 0, 0)
  decide (|new_odom.1 - cur.1| > s.d_thresh) ||
  decide (|new_odom.2.1 - cur.2.1| > s.d_thresh) ||
  decide (|new_odom.2.2 - cur.2.2| > s.a_thresh)

/-- `ParticleFilter.scan_received(msg)`: record the scan timestamp, and
store the scan into `scan_to_process` only when that slot is `None`. -/
def PFState.scan_received (s : PFState) (msg : Scan) : PFState :=
  let s1 := { s with last_scan_timestamp := some msg.stamp }
  if s1.scan_to_process = none then { s1 with scan_to_process := some msg } else s1

/-- `ParticleFilter.run_loop()`.  External collaborators are passed in:
`get_matching_odom_pose` resolves a timestamp to an odometry pose and a
signed time delta (`TFHelper`), `noise` are the motion-noise draws,
`x_dist`/`y_dist`/`th_dist` the cloud-initialization draws, and `sel` the
resampling index draws.  `convert_pose_to_xy_and_theta` is modelled as the
identity on pose triples, and `pub_color_scan`/`print` do not touch the
filter state.  The result pairs the new state with the particle cloud
published this tick (`none` on the early returns, which publish nothing). -/
def PFState.run_loop (s : PFState) (env : Env)
    (get_matching_odom_pose : ℚ → Option (ℚ × ℚ × ℚ) × Option ℚ)
    (noise : ℕ → ℚ × ℚ × ℚ) (x_dist y_dist th_dist : List ℚ) (sel : ℕ → ℕ) :
    PFState × Option (List Particle) :=
  match s.scan_to_process with
  | none => (s, none)
  | some msg =>
    match get_matching_odom_pose msg.stamp with
    | (none, some delta_t) =>
        if delta_t < 0 then ({ s with scan_to_process := none }, none) else (s, none)
    | (none, none) => (s, none)
    | (some new_pose, _) =>
      let s1 := { s with scan_to_process := none, odom_pose := some new_pose }
      let new_odom := new_pose
      let s2 :=
        match s1.current_odom_xy_theta with
        | none => { s1 with current_odom_xy_theta := some new_odom }
        | some _ =>
          if s1.particle_cloud = [] then
            s1.initialize_particle_cloud x_dist y_dist th_dist
          else if s1.moved_far_enough_to_update new_odom then
            ((((s1.update_particles_with_odom noise).update_particles_with_laser
                env msg.r msg.theta).update_robot_pose env).1).resample_particles sel
          else s1
      (s2, some s2.particle_cloud)

/-- The update cycle in the order the source's `run_loop` invokes it:
MotionModel, then SensorModel, then PoseEstimator (on the pre-resample
weighted population), then Resampler. -/
def full_update_cycle (s : PFState) (env : Env) (msg : Scan) (noise : ℕ → ℚ × ℚ × ℚ)
    (sel : ℕ → ℕ) : PFState :=
  ((((s.update_particles_with_odom noise).update_particles_with_laser
      env msg.r msg.theta).update_robot_pose env).1).resample_particles sel

/-- The parallel-array invariant of the spec: the particle list and the
weight array both have length `n_particles`, indexwise aligned. -/
def WF (s : PFState) : Prop :=
  s.particle_cloud.length = s.n_particles ∧ s.weights.length = s.n_particles

/-- The pose estimate x-coordinate as claim C3 states it: the weighted mean
`Σ weight_i · x_i` over the whole population, with normalized weights. -/
def claimed_weighted_mean_x (s : PFState) : ℚ :=
  (((normalizeWeights s.weights).zip s.particle_cloud).map (fun wp => wp.1 * wp.2.x)).sum

/-- The pose estimator as the code actually computes it, written from the
amended claim C3: normalize, take the `n_particles / 5` highest-weighted
particles, and return their unweighted mean in x and y together with the
heading `atan2(mean sin theta, mean cos theta)`. -/
def top_fifth_unweighted_estimate (s : PFState) (env : Env) : Particle :=
  let best := (s.normalize_particles).n_highest_weighted (s.n_particles / 5)
  { x := (best.map Particle.x).sum / best.length,
    y := (best.map Particle.y).sum / best.length,
    theta := env.atan2F ((best.map (fun p => env.sinF p.theta)).sum / best.length)
                        ((best.map (fun p => env.cosF p.theta)).sum / best.length) }

/-- An environment with every external function constantly zero: the
occupancy field reports distance 0 for every query (every projected point
sits on an obstacle). -/
def constEnv : Env :=
  { cosF := fun _ => 0, sinF := fun _ => 0, atan2F := fun _ _ => 0,
    closest_obstacle_distance := fun _ _ => 0 }

/-- A one-particle state for exercising the sensor update. -/
def laserTestState : PFState :=
  { PFState.initial 1 with particle_cloud := [⟨0, 0, 0⟩], weights := [5] }

/-- A five-particle equal-weight state: the claimed whole-population
weighted mean of x is 1/5, while the code averages only the single
(`5 // 5 = 1`) highest-weighted particle. -/
def poseTestState : PFState :=
  { PFState.initial 1 with
    n_particles := 5,
    particle_cloud := [⟨1, 0, 0⟩, ⟨0, 0, 0⟩, ⟨0, 0, 0⟩, ⟨0, 0, 0⟩, ⟨0, 0, 0⟩],
    weights := [1, 1, 1, 1, 1] }

/-- A state whose weights were left non-uniform by a previous sensor
update: particle 0 scored 2 hits, all others 0. -/
def staleWeightState : PFState :=
  { PFState.initial 1 with
    particle_cloud := List.replicate 300 ⟨0, 0, 0⟩,
    weights := 2 :: List.replicate 299 0 }

/-- Two distinct concrete scans for exercising the scan buffer. -/
def msgA : Scan := ⟨1, [1], [0]⟩

/-- A second concrete scan, arriving while `msgA` is still pending. -/
def msgB : Scan := ⟨2, [2], [0]⟩

/-- A concrete tracking state: a pending scan, a one-particle cloud, and an
anchor at the origin. -/
def trackingState : PFState :=
  { PFState.initial 1 with
    scan_to_process := some msgA,
    particle_cloud := [⟨0, 0, 0⟩],
    weights := [1],
    current_odom_xy_theta := some (0, 0, 0) }

end RobotLocalization

namespace RobotLocalization

/-- C10: `Particle(x, y, theta, w)` ignores the weight argument `w`: the
constructed particle is exactly `⟨x, y, theta⟩` whatever `w` is, so two
particles built with the same pose and different weights are equal; the
`Particle` record has no weight field. -/
theorem particle_init_ignores_weight (x y theta w w' : ℚ) :
    Particle.init x y theta w = Particle.init x y theta w' ∧
    Particle.init x y theta w = { x := x, y := y, theta := theta } := by
  constructor <;> rfl

/-- C1: evaluation of `normalize_particles` at the failing all-zero weight
vector (the degenerate case after a sensor update that matched nothing).
The code divides by the zero sum unconditionally — in the rational model
every weight becomes `0/0 = 0`; in numpy it becomes `nan` — and does not
produce the uniform `1/300` vector the spec requires.  For a positive-sum
vector the division does yield weights summing to 1
(`normalizeWeights_sum_one` below). -/
theorem normalize_zero_sum_not_uniform :
    normalizeWeights (List.replicate 300 (0 : ℚ)) = List.replicate 300 (0 : ℚ) ∧
    normalizeWeights (List.replicate 300 (0 : ℚ)) ≠ List.replicate 300 ((1 : ℚ)/300) := by
  have hmap : normalizeWeights (List.replicate 300 (0 : ℚ)) = List.replicate 300 (0 : ℚ) := by
    rw [normalizeWeights, List.map_replicate, zero_div]
  refine ⟨hmap, fun h => ?_⟩
  rw [hmap] at h
  have h300 : (300 : ℕ) = 299 + 1 := rfl
  rw [h300, List.replicate_succ, List.replicate_succ] at h
  have h0 : (0 : ℚ) = 1/300 := (List.cons.injEq _ _ _ _).mp h |>.1
  norm_num at h0

/-- Helper (used by several claims): normalization of a positive-sum weight
vector yields weights summing to exactly 1 in the rational model. -/
theorem normalizeWeights_sum_one (w : List ℚ) (h : 0 < w.sum) :
    (normalizeWeights w).sum = 1 := by
  unfold normalizeWeights
  simp only [div_eq_mul_inv]
  rw [List.sum_map_mul_right, List.map_id', mul_inv_cancel₀ (ne_of_gt h)]

/-- C2, counterexample: with a two-point scan whose projected points both
sit on obstacles (distance 0 < ε = 0.2), the raw weight of the particle is
2, and the sensor update stores exactly 2 — not `2 ^ 3 = 8` — as the
particle's weight.  The final weight is the raw hit count, not its cube. -/
theorem laser_update_weight_not_cubed :
    particle_raw_weight constEnv laserTestState.scan_eval_threshold [1, 1] [0, 0] ⟨0, 0, 0⟩ = 2 ∧
    (laserTestState.update_particles_with_laser constEnv [1, 1] [0, 0]).weights = [(2 : ℚ)] ∧
    [(2 : ℚ)] ≠ [(2 : ℚ) ^ 3] := by
  refine ⟨?_, ?_, ?_⟩
  · norm_num [particle_raw_weight, project_scan_to_map, constEnv, laserTestState,
      PFState.initial, List.countP, List.countP.go]
  · norm_num [PFState.update_particles_with_laser, particle_raw_weight, project_scan_to_map,
      constEnv, laserTestState, PFState.initial, List.countP, List.countP.go]
  · norm_num

/-- C2, amended: for every particle index `i`, the sensor update assigns
particle `i` the weight `raw_weight(p_i)` itself (exponent 1), where
`raw_weight` is the count of projected scan points whose occupancy-field
distance is strictly below the threshold `scan_eval_threshold`. -/
theorem laser_update_assigns_raw_count (s : PFState) (env : Env) (rs thetas : List ℚ)
    (i : ℕ) (h : i < s.particle_cloud.length) :
    (s.update_particles_with_laser env rs thetas).weights.getD i 0 =
      (particle_raw_weight env s.scan_eval_threshold rs thetas
        (s.particle_cloud.getD i default) : ℚ) := by
  unfold PFState.update_particles_with_laser
  dsimp only
  have hlen : i < (s.particle_cloud.map
      (fun p => (particle_raw_weight env s.scan_eval_threshold rs thetas p : ℚ))).length := by
    simpa using h
  rw [List.getD_eq_getElem?_getD, List.getElem?_append_left hlen, List.getElem?_map,
      List.getElem?_eq_getElem h, List.getD_eq_getElem?_getD, List.getElem?_eq_getElem h]
  simp

/-- C2, witness for `laser_update_assigns_raw_count` at a concrete state. -/
theorem laser_update_assigns_raw_count_checked :
    (laserTestState.update_particles_with_laser constEnv [1, 1] [0, 0]).weights.getD 0 0 =
      (particle_raw_weight constEnv laserTestState.scan_eval_threshold [1, 1] [0, 0]
        (laserTestState.particle_cloud.getD 0 default) : ℚ) :=
  laser_update_assigns_raw_count laserTestState constEnv [1, 1] [0, 0] 0 (by decide)

/-- C3, counterexample: on an equal-weight five-particle population the
pose-estimation step returns x̄ = 1 (the unweighted average of the single
top-fifth particle), while the whole-population weighted mean of the claim
is 1/5. -/
theorem pose_estimate_not_weighted_population_mean :
    (poseTestState.update_robot_pose constEnv).2.x = 1 ∧
    claimed_weighted_mean_x poseTestState = 1/5 ∧
    (1 : ℚ) ≠ 1/5 := by
  refine ⟨?_, ?_, ?_⟩
  · norm_num [PFState.update_robot_pose, PFState.n_highest_weighted, PFState.normalize_particles,
      normalizeWeights, poseTestState, PFState.initial, constEnv,
      List.insertionSort, List.orderedInsert, List.range, List.range.loop]
  · norm_num [claimed_weighted_mean_x, normalizeWeights, poseTestState, PFState.initial,
      List.zip, List.zipWith]
  · norm_num

/-- C3, amended: for every state and environment, the pose-estimation step
returns the unweighted mean over the `n_particles / 5` highest-weighted
particles (heading via atan2 of the averaged unit vectors), and its only
state mutation is the weight normalization. -/
theorem update_robot_pose_is_top_fifth_mean (s : PFState) (env : Env) :
    (s.update_robot_pose env).2 = top_fifth_unweighted_estimate s env ∧
    (s.update_robot_pose env).1 = s.normalize_particles :=
  ⟨rfl, rfl⟩

/-- C4: evaluation of `initialize_particle_cloud` at the failing input.
Re-initializing the cloud (e.g. from an rviz pose hint) with stale weights
`[2, 0, ..., 0]` leaves the weight array as the normalized stale weights
`[1, 0, ..., 0]`, not the uniform `1/300` vector: the weight array is never
rebuilt, and the `w = 1` argument passed to every `Particle` constructor is
discarded (see `particle_init_ignores_weight`). -/
theorem initialize_cloud_keeps_stale_weights :
    (staleWeightState.initialize_particle_cloud (List.replicate 300 0)
        (List.replicate 300 0) (List.replicate 300 0)).weights =
      1 :: List.replicate 299 (0 : ℚ) ∧
    1 :: List.replicate 299 (0 : ℚ) ≠ List.replicate 300 ((1 : ℚ)/300) := by
  constructor
  · show normalizeWeights (2 :: List.replicate 299 (0 : ℚ)) = _
    have hsum : (2 :: List.replicate 299 (0 : ℚ)).sum = 2 := by
      rw [List.sum_cons, List.sum_replicate, smul_zero, add_zero]
    simp only [normalizeWeights, hsum, List.map_cons, List.map_replicate]
    norm_num
  · intro h
    have h300 : (300 : ℕ) = 299 + 1 := rfl
    rw [h300, List.replicate_succ] at h
    have h1 : (1 : ℚ) = 1/300 := (List.cons.injEq _ _ _ _).mp h |>.1
    norm_num at h1

/-- C7: the pending-scan slot holds at most one scan and is never
overwritten while occupied: an incoming scan is stored only when the slot
is empty, and when a scan is already pending the newcomer is dropped and
the slot keeps the first scan's content unchanged. -/
theorem scan_received_single_slot (s : PFState) (msg m0 : Scan) :
    (s.scan_to_process = none → (s.scan_received msg).scan_to_process = some msg) ∧
    (s.scan_to_process = some m0 → (s.scan_received msg).scan_to_process = some m0) := by
  unfold PFState.scan_received
  constructor
  · intro h
    simp [h]
  · intro h
    simp [h]

/-- C7, witness: with an empty slot the scan is stored; with `msgA`
pending, an arriving `msgB` is dropped and the slot still holds `msgA`. -/
theorem scan_received_single_slot_checked :
    ((PFState.initial 1).scan_received msgB).scan_to_process = some msgB ∧
    (({ PFState.initial 1 with scan_to_process := some msgA }).scan_received msgB).scan_to_process
      = some msgA :=
  ⟨(scan_received_single_slot (PFState.initial 1) msgB msgA).1 rfl,
   (scan_received_single_slot { PFState.initial 1 with scan_to_process := some msgA } msgB
      msgA).2 rfl⟩

/-- C8: a pending scan whose odometry pose cannot be resolved.  A negative
signed delta means permanently unresolvable: the scan is cleared from the
slot (never retried) and nothing else of the state changes.  A non-negative
or absent delta means not yet available: the state is returned completely
unchanged, so the scan stays in the slot and is retried next tick.  In all
three cases nothing is published and cloud, weights and anchor are
untouched. -/
theorem run_loop_unresolved_odom (s : PFState) (env : Env)
    (resolve : ℚ → Option (ℚ × ℚ × ℚ) × Option ℚ) (noise : ℕ → ℚ × ℚ × ℚ)
    (xs ys ths : List ℚ) (sel : ℕ → ℕ) (msg : Scan)
    (hscan : s.scan_to_process = some msg) :
    (∀ d, resolve msg.stamp = (none, some d) → d < 0 →
      s.run_loop env resolve noise xs ys ths sel =
        ({ s with scan_to_process := none }, none)) ∧
    (∀ d, resolve msg.stamp = (none, some d) → 0 ≤ d →
      s.run_loop env resolve noise xs ys ths sel = (s, none)) ∧
    (resolve msg.stamp = (none, none) →
      s.run_loop env resolve noise xs ys ths sel = (s, none)) := by
  unfold PFState.run_loop
  refine ⟨?_, ?_, ?_⟩
  · intro d hres hneg
    simp only [hscan, hres]
    rw [if_pos hneg]
  · intro d hres hnn
    simp only [hscan, hres]
    rw [if_neg (not_lt.mpr hnn)]
  · intro hres
    simp only [hscan, hres]

/-- C8, witness: a concrete pending scan, resolved three ways — delta −1
(discard), delta 1 (retry), absent delta (retry). -/
theorem run_loop_unresolved_odom_checked :
    ({ PFState.initial 1 with scan_to_process := some msgA } : PFState).run_loop constEnv
        (fun _ => (none, some (-1))) (fun _ => (0, 0, 0)) [] [] [] (fun _ => 0) =
      ({ { PFState.initial 1 with scan_to_process := some msgA } with scan_to_process := none },
        none) ∧
    ({ PFState.initial 1 with scan_to_process := some msgA } : PFState).run_loop constEnv
        (fun _ => (none, some 1)) (fun _ => (0, 0, 0)) [] [] [] (fun _ => 0) =
      ({ PFState.initial 1 with scan_to_process := some msgA }, none) ∧
    ({ PFState.initial 1 with scan_to_process := some msgA } : PFState).run_loop constEnv
        (fun _ => (none, none)) (fun _ => (0, 0, 0)) [] [] [] (fun _ => 0) =
      ({ PFState.initial 1 with scan_to_process := some msgA }, none) :=
  ⟨(run_loop_unresolved_odom _ constEnv (fun _ => (none, some (-1))) _ [] [] [] _ msgA
      rfl).1 (-1) rfl (by norm_num),
   (run_loop_unresolved_odom _ constEnv (fun _ => (none, some 1)) _ [] [] [] _ msgA
      rfl).2.1 1 rfl (by norm_num),
   (run_loop_unresolved_odom _ constEnv (fun _ => (none, none)) _ [] [] [] _ msgA
      rfl).2.2 rfl⟩

/-- Helper: the motion update writes the new odometry pose into the anchor
whenever an anchor already exists. -/
theorem update_particles_with_odom_anchor (s : PFState) (noise : ℕ → ℚ × ℚ × ℚ)
    (cur : ℚ × ℚ × ℚ) (h : s.current_odom_xy_theta = some cur) :
    (s.update_particles_with_odom noise).current_odom_xy_theta =
      some (s.odom_pose.getD (0, 0, 0)) := by
  unfold PFState.update_particles_with_odom
  rw [h]

/-- Helper: the sensor update, the pose-estimation state update and the
resampler all leave the odometry anchor untouched. -/
theorem anchor_untouched_by_sensor_pose_resample (s : PFState) (env : Env)
    (rs thetas : List ℚ) (sel : ℕ → ℕ) :
    (s.update_particles_with_laser env rs thetas).current_odom_xy_theta =
        s.current_odom_xy_theta ∧
    ((s.update_robot_pose env).1).current_odom_xy_theta = s.current_odom_xy_theta ∧
    (s.resample_particles sel).current_odom_xy_theta = s.current_odom_xy_theta :=
  ⟨rfl, rfl, rfl⟩

/-- Helper: across a full update cycle with an existing anchor, the anchor
ends at the odometry pose stored in the state. -/
theorem full_update_cycle_anchor (s : PFState) (env : Env) (msg : Scan)
    (noise : ℕ → ℚ × ℚ × ℚ) (sel : ℕ → ℕ) (cur : ℚ × ℚ × ℚ)
    (h : s.current_odom_xy_theta = some cur) :
    (full_update_cycle s env msg noise sel).current_odom_xy_theta =
      some (s.odom_pose.getD (0, 0, 0)) := by
  unfold full_update_cycle
  rw [(anchor_untouched_by_sensor_pose_resample _ env [] [] sel).2.2,
    (anchor_untouched_by_sensor_pose_resample _ env [] [] sel).2.1,
    (anchor_untouched_by_sensor_pose_resample _ env msg.r msg.theta sel).1,
    update_particles_with_odom_anchor _ noise cur h]

/-- C5: with a pending scan whose pose resolves, an existing anchor, a
non-empty cloud and the movement gate open, `run_loop` runs exactly the
composition MotionModel (`update_particles_with_odom`) → SensorModel
(`update_particles_with_laser`) → PoseEstimator (`update_robot_pose`, on
the pre-resample weighted population) → Resampler (`resample_particles`),
publishes the resulting cloud, and the anchor ends up at the new odometry
pose. -/
theorem run_loop_full_cycle_order (s : PFState) (env : Env)
    (resolve : ℚ → Option (ℚ × ℚ × ℚ) × Option ℚ) (noise : ℕ → ℚ × ℚ × ℚ)
    (xs ys ths : List ℚ) (sel : ℕ → ℕ) (msg : Scan) (new_pose : ℚ × ℚ × ℚ)
    (dt : Option ℚ) (cur : ℚ × ℚ × ℚ)
    (hscan : s.scan_to_process = some msg)
    (hres : resolve msg.stamp = (some new_pose, dt))
    (hanchor : s.current_odom_xy_theta = some cur)
    (hcloud : s.particle_cloud ≠ [])
    (hmoved : PFState.moved_far_enough_to_update
      { s with scan_to_process := none, odom_pose := some new_pose } new_pose = true) :
    s.run_loop env resolve noise xs ys ths sel =
      (full_update_cycle { s with scan_to_process := none, odom_pose := some new_pose }
          env msg noise sel,
        some (full_update_cycle { s with scan_to_process := none, odom_pose := some new_pose }
          env msg noise sel).particle_cloud) ∧
    (full_update_cycle { s with scan_to_process := none, odom_pose := some new_pose }
        env msg noise sel).current_odom_xy_theta = some new_pose := by
  constructor
  · unfold PFState.run_loop
    rw [hanchor] at hmoved
    simp only [hscan, hres, hanchor]
    rw [if_neg hcloud, hmoved]
    simp [full_update_cycle, hanchor]
  · exact full_update_cycle_anchor _ env msg noise sel cur hanchor

/-- C6: in the tracking state with a non-empty cloud, when the displacement
since the anchor is at most `d_thresh` in |dx| and |dy| and at most
`a_thresh` in |dtheta|, the tick leaves particle cloud, weights and anchor
unchanged (only the consumed scan slot and the stored odometry pose are
written) and still publishes the current particle cloud. -/
theorem run_loop_gated_tick_preserves_filter (s : PFState) (env : Env)
    (resolve : ℚ → Option (ℚ × ℚ × ℚ) × Option ℚ) (noise : ℕ → ℚ × ℚ × ℚ)
    (xs ys ths : List ℚ) (sel : ℕ → ℕ) (msg : Scan) (new_pose : ℚ × ℚ × ℚ)
    (dt : Option ℚ) (cur : ℚ × ℚ × ℚ)
    (hscan : s.scan_to_process = some msg)
    (hres : resolve msg.stamp = (some new_pose, dt))
    (hanchor : s.current_odom_xy_theta = some cur)
    (hcloud : s.particle_cloud ≠ [])
    (hdx : |new_pose.1 - cur.1| ≤ s.d_thresh)
    (hdy : |new_pose.2.1 - cur.2.1| ≤ s.d_thresh)
    (hdth : |new_pose.2.2 - cur.2.2| ≤ s.a_thresh) :
    s.run_loop env resolve noise xs ys ths sel =
      ({ s with scan_to_process := none, odom_pose := some new_pose },
        some s.particle_cloud) := by
  have hmoved : PFState.moved_far_enough_to_update
      { s with scan_to_process := none, odom_pose := some new_pose } new_pose = false := by
    simp only [PFState.moved_far_enough_to_update, hanchor, Option.getD_some,
      Bool.or_eq_false_iff, decide_eq_false_iff_not, gt_iff_lt, not_lt]
    exact ⟨⟨hdx, hdy⟩, hdth⟩
  unfold PFState.run_loop
  rw [hanchor] at hmoved
  simp only [hscan, hres, hanchor]
  rw [if_neg hcloud, hmoved]
  simp [hanchor]

/-- C5, witness: from `trackingState`, odometry resolving to (1, 0, 0) —
displacement 1 > d_thresh = 0.05 — makes the tick run the full
Motion → Sensor → Pose → Resample cycle, publish its cloud and move the
anchor to (1, 0, 0). -/
theorem run_loop_full_cycle_order_checked :
    trackingState.run_loop constEnv (fun _ => (some (1, 0, 0), some 0)) (fun _ => (0, 0, 0))
        [] [] [] (fun _ => 0) =
      (full_update_cycle
          { trackingState with scan_to_process := none, odom_pose := some (1, 0, 0) }
          constEnv msgA (fun _ => (0, 0, 0)) (fun _ => 0),
        some (full_update_cycle
          { trackingState with scan_to_process := none, odom_pose := some (1, 0, 0) }
          constEnv msgA (fun _ => (0, 0, 0)) (fun _ => 0)).particle_cloud) ∧
    (full_update_cycle
        { trackingState with scan_to_process := none, odom_pose := some (1, 0, 0) }
        constEnv msgA (fun _ => (0, 0, 0)) (fun _ => 0)).current_odom_xy_theta =
      some (1, 0, 0) :=
  run_loop_full_cycle_order trackingState constEnv (fun _ => (some (1, 0, 0), some 0))
    (fun _ => (0, 0, 0)) [] [] [] (fun _ => 0) msgA (1, 0, 0) (some 0) (0, 0, 0)
    rfl rfl rfl
    (by show ([(⟨0, 0, 0⟩ : Particle)]) ≠ []
        simp)
    (by show ((decide (|(1 : ℚ) - (0 : ℚ)| > 5/100) || decide (|(0 : ℚ) - (0 : ℚ)| > 5/100)) ||
          decide (|(0 : ℚ) - (0 : ℚ)| > (1 : ℚ))) = true
        norm_num)

/-- C6, witness: from `trackingState`, odometry resolving to the anchor
pose itself (displacement 0 on every axis) leaves cloud, weights and
anchor untouched and still publishes the current cloud. -/
theorem run_loop_gated_tick_checked :
    trackingState.run_loop constEnv (fun _ => (some (0, 0, 0), some 0)) (fun _ => (0, 0, 0))
        [] [] [] (fun _ => 0) =
      ({ trackingState with scan_to_process := none, odom_pose := some (0, 0, 0) },
        some trackingState.particle_cloud) :=
  run_loop_gated_tick_preserves_filter trackingState constEnv (fun _ => (some (0, 0, 0), some 0))
    (fun _ => (0, 0, 0)) [] [] [] (fun _ => 0) msgA (0, 0, 0) (some 0) (0, 0, 0)
    rfl rfl rfl
    (by show ([(⟨0, 0, 0⟩ : Particle)]) ≠ []
        simp)
    (by show |(0 : ℚ) - (0 : ℚ)| ≤ 5/100
        norm_num)
    (by show |(0 : ℚ) - (0 : ℚ)| ≤ 5/100
        norm_num)
    (by show |(0 : ℚ) - (0 : ℚ)| ≤ (1 : ℚ)
        norm_num)

/-- Helper: weight normalization changes no lengths and no configuration. -/
theorem normalize_particles_lengths (s : PFState) :
    (s.normalize_particles).particle_cloud = s.particle_cloud ∧
    (s.normalize_particles).weights.length = s.weights.length ∧
    (s.normalize_particles).n_particles = s.n_particles :=
  ⟨rfl, by simp [PFState.normalize_particles, normalizeWeights], rfl⟩

/-- Helper: the motion update relocates particles in place — cloud length,
weight array and configuration are untouched. -/
theorem update_particles_with_odom_lengths (s : PFState) (noise : ℕ → ℚ × ℚ × ℚ) :
    (s.update_particles_with_odom noise).particle_cloud.length = s.particle_cloud.length ∧
    (s.update_particles_with_odom noise).weights = s.weights ∧
    (s.update_particles_with_odom noise).n_particles = s.n_particles := by
  unfold PFState.update_particles_with_odom
  cases h : s.current_odom_xy_theta with
  | none => exact ⟨rfl, rfl, rfl⟩
  | some cur => exact ⟨by simp, rfl, rfl⟩

/-- Helper: the sensor update rewrites one weight per particle index and
keeps the cloud; the weight array keeps its length whenever it is at least
as long as the cloud. -/
theorem update_particles_with_laser_lengths (s : PFState) (env : Env) (rs thetas : List ℚ) :
    (s.update_particles_with_laser env rs thetas).particle_cloud = s.particle_cloud ∧
    (s.update_particles_with_laser env rs thetas).weights.length =
      s.particle_cloud.length + (s.weights.length - s.particle_cloud.length) ∧
    (s.update_particles_with_laser env rs thetas).n_particles = s.n_particles :=
  ⟨rfl, by simp [PFState.update_particles_with_laser], rfl⟩

/-- Helper: resampling replaces the cloud by exactly `n_particles` draws
and only normalizes the weight array. -/
theorem resample_particles_lengths (s : PFState) (sel : ℕ → ℕ) :
    (s.resample_particles sel).particle_cloud.length = s.n_particles ∧
    (s.resample_particles sel).weights.length = s.weights.length ∧
    (s.resample_particles sel).n_particles = s.n_particles := by
  refine ⟨?_, ?_, rfl⟩ <;>
    simp [PFState.resample_particles, draw_random_sample, PFState.normalize_particles,
      normalizeWeights]

/-- Helper: re-initialization rebuilds the cloud with exactly `n_particles`
particles and keeps the weight-array length. -/
theorem initialize_particle_cloud_lengths (s : PFState) (xs ys ths : List ℚ) :
    (s.initialize_particle_cloud xs ys ths).particle_cloud.length = s.n_particles ∧
    (s.initialize_particle_cloud xs ys ths).weights.length = s.weights.length ∧
    (s.initialize_particle_cloud xs ys ths).n_particles = s.n_particles := by
  refine ⟨?_, ?_, rfl⟩ <;>
    simp [PFState.initialize_particle_cloud, PFState.normalize_particles, normalizeWeights]

/-- Helper: a full update cycle preserves the parallel-array invariant and
the population size. -/
theorem full_update_cycle_WF (s : PFState) (env : Env) (msg : Scan)
    (noise : ℕ → ℚ × ℚ × ℚ) (sel : ℕ → ℕ) (h : WF s) :
    WF (full_update_cycle s env msg noise sel) ∧
    (full_update_cycle s env msg noise sel).n_particles = s.n_particles := by
  obtain ⟨hc, hw⟩ := h
  unfold full_update_cycle
  obtain ⟨h1c, h1w, h1n⟩ := update_particles_with_odom_lengths s noise
  obtain ⟨h2c, h2w, h2n⟩ := update_particles_with_laser_lengths
    (s.update_particles_with_odom noise) env msg.r msg.theta
  obtain ⟨h3c, h3w, h3n⟩ := normalize_particles_lengths
    ((s.update_particles_with_odom noise).update_particles_with_laser env msg.r msg.theta)
  obtain ⟨h4c, h4w, h4n⟩ := resample_particles_lengths
    (((s.update_particles_with_odom noise).update_particles_with_laser
      env msg.r msg.theta).update_robot_pose env).1 sel
  have hpose : ((((s.update_particles_with_odom noise).update_particles_with_laser
      env msg.r msg.theta).update_robot_pose env).1) =
      (((s.update_particles_with_odom noise).update_particles_with_laser
        env msg.r msg.theta).normalize_particles) := rfl
  rw [hpose] at h4c h4w h4n ⊢
  have h1w' := congrArg List.length h1w
  have h2c' := congrArg List.length h2c
  have h3c' := congrArg List.length h3c
  refine ⟨⟨?_, ?_⟩, ?_⟩ <;> omega

/-- Helper: one `run_loop` tick preserves the parallel-array invariant
and the population size, whichever branch it takes. -/
theorem run_loop_WF (s : PFState) (env : Env)
    (resolve : ℚ → Option (ℚ × ℚ × ℚ) × Option ℚ) (noise : ℕ → ℚ × ℚ × ℚ)
    (xs ys ths : List ℚ) (sel : ℕ → ℕ) (h : WF s) :
    WF (s.run_loop env resolve noise xs ys ths sel).1 ∧
    (s.run_loop env resolve noise xs ys ths sel).1.n_particles = s.n_particles := by
  obtain ⟨hc, hw⟩ := h
  unfold PFState.run_loop
  dsimp only
  split
  · exact ⟨⟨hc, hw⟩, rfl⟩
  · split
    · split
      · exact ⟨⟨hc, hw⟩, rfl⟩
      · exact ⟨⟨hc, hw⟩, rfl⟩
    · exact ⟨⟨hc, hw⟩, rfl⟩
    · split
      · exact ⟨⟨hc, hw⟩, rfl⟩
      · split
        · refine ⟨⟨?_, ?_⟩, rfl⟩
          · show ((List.range s.n_particles).map _).length = s.n_particles
            rw [List.length_map, List.length_range]
          · show (normalizeWeights s.weights).length = s.n_particles
            rw [normalizeWeights, List.length_map, hw]
        · split
          · exact full_update_cycle_WF _ env _ noise sel ⟨hc, hw⟩
          · exact ⟨⟨hc, hw⟩, rfl⟩

/-- C9: after the cloud is initialized, every filter operation — motion
update, sensor update, pose estimation, resampling, re-initialization, and
a whole `run_loop` tick — preserves `len(particles) = len(weights) =
n_particles`, and the population size attribute itself is never mutated;
the constructed filter fixes `n_particles = 300` with a weight array of
length 300. -/
theorem filter_preserves_parallel_array_invariant (s : PFState) (a : ℚ) (env : Env)
    (rs thetas xs ys ths : List ℚ) (noise : ℕ → ℚ × ℚ × ℚ) (sel : ℕ → ℕ)
    (resolve : ℚ → Option (ℚ × ℚ × ℚ) × Option ℚ) (msg : Scan) (h : WF s) :
    (PFState.initial a).n_particles = 300 ∧
    (PFState.initial a).weights.length = 300 ∧
    (WF (s.update_particles_with_odom noise) ∧
      (s.update_particles_with_odom noise).n_particles = s.n_particles) ∧
    (WF (s.update_particles_with_laser env rs thetas) ∧
      (s.update_particles_with_laser env rs thetas).n_particles = s.n_particles) ∧
    (WF ((s.update_robot_pose env).1) ∧
      ((s.update_robot_pose env).1).n_particles = s.n_particles) ∧
    (WF (s.resample_particles sel) ∧
      (s.resample_particles sel).n_particles = s.n_particles) ∧
    (WF (s.initialize_particle_cloud xs ys ths) ∧
      (s.initialize_particle_cloud xs ys ths).n_particles = s.n_particles) ∧
    (WF (s.run_loop env resolve noise xs ys ths sel).1 ∧
      (s.run_loop env resolve noise xs ys ths sel).1.n_particles = s.n_particles) := by
  obtain ⟨hc, hw⟩ := h
  refine ⟨rfl, ?_, ?_, ?_, ?_, ?_, ?_, ?_⟩
  · show (List.replicate 300 (1 : ℚ)).length = 300
    rw [List.length_replicate]
  · obtain ⟨h1, h2, h3⟩ := update_particles_with_odom_lengths s noise
    exact ⟨⟨by rw [h1, hc, h3], by rw [h2, hw, h3]⟩, h3⟩
  · obtain ⟨h1, h2, h3⟩ := update_particles_with_laser_lengths s env rs thetas
    refine ⟨⟨by rw [h1, hc, h3], ?_⟩, h3⟩
    rw [h2, hc, hw, h3]
    omega
  · have hpose : (s.update_robot_pose env).1 = s.normalize_particles := rfl
    obtain ⟨h1, h2, h3⟩ := normalize_particles_lengths s
    rw [hpose]
    exact ⟨⟨by rw [h1, hc, h3], by rw [h2, hw, h3]⟩, h3⟩
  · obtain ⟨h1, h2, h3⟩ := resample_particles_lengths s sel
    exact ⟨⟨by rw [h1, h3], by rw [h2, hw, h3]⟩, h3⟩
  · obtain ⟨h1, h2, h3⟩ := initialize_particle_cloud_lengths s xs ys ths
    exact ⟨⟨by rw [h1, h3], by rw [h2, hw, h3]⟩, h3⟩
  · exact run_loop_WF s env resolve noise xs ys ths sel ⟨hc, hw⟩

/-- C9, witness: the invariant-preservation theorem applied to a concrete
well-formed 300-particle state, for the whole-tick conjunct. -/
theorem filter_preserves_parallel_array_invariant_checked :
    WF ((staleWeightState.run_loop constEnv (fun _ => (none, none)) (fun _ => (0, 0, 0))
      [] [] [] (fun _ => 0)).1) :=
  (filter_preserves_parallel_array_invariant staleWeightState 1 constEnv [] [] [] [] []
    (fun _ => (0, 0, 0)) (fun _ => 0) (fun _ => (none, none)) msgA
    ⟨by show (List.replicate 300 (⟨0, 0, 0⟩ : Particle)).length = 300
        rw [List.length_replicate],
     by show (2 :: List.replicate 299 (0 : ℚ)).length = 300
        rw [List.length_cons, List.length_replicate]⟩).2.2.2.2.2.2.2.1

end RobotLocalization
